import Mathlib

/-
Verification of the OptionSuite portfolio accounting and position-lifecycle
engine against its specification.  The repository ships the unit tests of the
engine (portfolioManager/portfolioTest.py); the engine itself (Portfolio,
Strangle position, risk-management strategies, fee configuration) is modelled
here from the specification, with the numeric constants pinned by the unit
tests.  Currency and Greek values are exact rationals, matching the spec's
requirement of exact decimal arithmetic.
-/

namespace OptionSuite

/-- Modelled from the spec: option right (put or call) of a contract leg;
the concrete Put/Call classes of the repository are not in the sources. -/
inductive OptionRight
| put
| call
deriving DecidableEq

/-- Modelled from the spec: direction of a position, applied uniformly to all
legs (optionPrimitive.TransactionType in the tests). -/
inductive TransactionType
| BUY
| SELL
deriving DecidableEq

/-- Modelled from the spec: one option contract observation (spec section 3,
Leg).  Currency amounts and Greeks are exact rationals; timestamps are
integers ordered like dates.  Immutable once constructed. -/
structure Leg where
  underlyingTicker : String
  right : OptionRight
  underlyingPrice : ℚ
  strikePrice : ℚ
  delta : ℚ
  gamma : ℚ
  theta : ℚ
  vega : ℚ
  dateTime : ℤ
  expirationDateTime : ℤ
  bidPrice : ℚ
  askPrice : ℚ
  tradePrice : ℚ
deriving DecidableEq

/-- Modelled from the spec: the single currently-required risk-management
variant, hold-to-expiration (strangleRiskManagement in the tests). -/
inductive RiskStrategy
| holdToExpiration
deriving DecidableEq

/-- Modelled from the spec: an open strategy instance (spec section 3,
Position): ordered legs, order quantity, direction, the credit or debit per
contract received at open, and the attached risk-management strategy.
Derived values (buying power, Greeks, mark-to-market) are recomputed from the
legs, never patched. -/
structure Position where
  legs : List Leg
  orderQuantity : ℕ
  buyOrSell : TransactionType
  openPremium : ℚ
  riskManagement : RiskStrategy
deriving DecidableEq

/-- Modelled from the spec: construction of a two-leg strangle position
(strangle.Strangle in the tests); the premium at open is the sum of the two
legs' trade prices. -/
def mkStrangle (orderQuantity : ℕ) (callOpt : Leg) (putOpt : Leg)
    (buyOrSell : TransactionType) : Position :=
  { legs := [callOpt, putOpt]
    orderQuantity := orderQuantity
    buyOrSell := buyOrSell
    openPremium := callOpt.tradePrice + putOpt.tradePrice
    riskManagement := RiskStrategy.holdToExpiration }

/-- Maximum of two rationals, written with an explicit decidable test so that
every computation below evaluates by kernel reduction. -/
def qmax (a b : ℚ) : ℚ := if a ≤ b then b else a

/-- Modelled from the spec: per-share naked margin requirement of one leg.
The spec leaves the brokerage margin rule configurable and pins it only
through the section 8 reference scenario; the rule recovered from those
numbers is 25 percent of the underlying price, minus the out-of-the-money
amount, plus the option premium. -/
def nakedMarginPerShare (l : Leg) : ℚ :=
  match l.right with
  | OptionRight.call => 1/4 * l.underlyingPrice - (l.strikePrice - l.underlyingPrice) + l.tradePrice
  | OptionRight.put => 1/4 * l.underlyingPrice - (l.underlyingPrice - l.strikePrice) + l.tradePrice

/-- Modelled from the spec: buying-power requirement of a position — the
larger of the per-side naked requirements, times 100 shares per contract,
times the order quantity (validated against the section 8 scenario). -/
def Position.getBuyingPower (p : Position) : ℚ :=
  ((p.legs.map nakedMarginPerShare).foldr qmax 0) * 100 * (p.orderQuantity : ℚ)

/-- Modelled from the spec: aggregate delta of a position — plain sum of the
legs' raw deltas, scaled by the order quantity, with no sign reversal for a
SELL position. -/
def Position.getDelta (p : Position) : ℚ :=
  (p.orderQuantity : ℚ) * (p.legs.map Leg.delta).sum

/-- Modelled from the spec: aggregate gamma of a position (plain sum, no sign
reversal for SELL). -/
def Position.getGamma (p : Position) : ℚ :=
  (p.orderQuantity : ℚ) * (p.legs.map Leg.gamma).sum

/-- Modelled from the spec: aggregate theta of a position (plain sum, no sign
reversal for SELL). -/
def Position.getTheta (p : Position) : ℚ :=
  (p.orderQuantity : ℚ) * (p.legs.map Leg.theta).sum

/-- Modelled from the spec: aggregate vega of a position (plain sum, no sign
reversal for SELL). -/
def Position.getVega (p : Position) : ℚ :=
  (p.orderQuantity : ℚ) * (p.legs.map Leg.vega).sum

/-- Modelled from the spec: current per-share cost to close the position (sum
of the legs' current trade prices). -/
def Position.costToClose (p : Position) : ℚ :=
  (p.legs.map Leg.tradePrice).sum

/-- Modelled from the spec: mark-to-market profit and loss — credit received
at open minus current cost to close, times quantity and the 100-share
contract multiplier, sign flipped for a long position (spec section 4.2). -/
def Position.calcProfitLoss (p : Position) : ℚ :=
  match p.buyOrSell with
  | TransactionType.SELL => (p.openPremium - p.costToClose) * 100 * (p.orderQuantity : ℚ)
  | TransactionType.BUY => (p.costToClose - p.openPremium) * 100 * (p.orderQuantity : ℚ)

/-- Earliest expiration timestamp among a list of expiration timestamps. -/
def earliestOf (ts : List ℤ) : ℤ :=
  match ts with
  | [] => 0
  | t :: rest => rest.foldl (fun a x => if x ≤ a then x else a) t

/-- Modelled from the spec: earliest leg expiration of a position. -/
def Position.earliestExpiration (p : Position) : ℤ :=
  earliestOf (p.legs.map Leg.expirationDateTime)

/-- Modelled from the spec: a position is expired as of a timestamp when the
timestamp is at or after the earliest leg's expiration (spec section 4.2). -/
def Position.isExpiredAsOf (p : Position) (asOf : ℤ) : Bool :=
  decide (p.earliestExpiration ≤ asOf)

/-- Modelled from the spec: risk-management closure decision — the
hold-to-expiration variant closes exactly the expired positions (spec
section 4.3). -/
def shouldClose (rm : RiskStrategy) (p : Position) (asOf : ℤ) : Bool :=
  match rm with
  | RiskStrategy.holdToExpiration => p.isExpiredAsOf asOf

/-- Modelled from the spec: per-contract opening commission and fee of the
external tastyworks pricing configuration, recovered exactly from the test
constants (1.5427 for the two-contract reference strangle). -/
def openFeePerContract : ℚ := 77135 / 100000

/-- Modelled from the spec: commissions and fees charged at open — the
per-contract fee times the number of legs times the order quantity. -/
def Position.openingFees (p : Position) : ℚ :=
  openFeePerContract * (p.legs.length : ℚ) * (p.orderQuantity : ℚ)

/-- Modelled from the spec: structural validity of a strangle position —
exactly one call leg, exactly one put leg, two legs in total, and a positive
order quantity (spec section 7). -/
def Position.isValid (p : Position) : Bool :=
  (p.legs.countP (fun l => decide (l.right = OptionRight.call)) == 1) &&
  (p.legs.countP (fun l => decide (l.right = OptionRight.put)) == 1) &&
  (p.legs.length == 2) &&
  decide (0 < p.orderQuantity)

/-- Modelled from the spec: the Portfolio state (spec section 3) — fixed
configuration, active-position list, and the running aggregates. -/
structure Portfolio where
  startingCapital : ℚ
  maxCapitalToUse : ℚ
  maxCapitalToUsePerTrade : ℚ
  activePositions : List Position
  totalBuyingPower : ℚ
  totalDelta : ℚ
  totalGamma : ℚ
  totalTheta : ℚ
  totalVega : ℚ
  netLiquidity : ℚ
  totalFees : ℚ
deriving DecidableEq

/-- Modelled from the spec: a freshly constructed Portfolio — no positions,
zero aggregates, net liquidity equal to starting capital. -/
def Portfolio.make (startingCapital : ℚ) (maxCapitalToUse : ℚ)
    (maxCapitalToUsePerTrade : ℚ) : Portfolio :=
  { startingCapital := startingCapital
    maxCapitalToUse := maxCapitalToUse
    maxCapitalToUsePerTrade := maxCapitalToUsePerTrade
    activePositions := []
    totalBuyingPower := 0
    totalDelta := 0
    totalGamma := 0
    totalTheta := 0
    totalVega := 0
    netLiquidity := startingCapital
    totalFees := 0 }

/-- Sum of the buying-power requirements over a list of positions. -/
def sumBuyingPower (ps : List Position) : ℚ := (ps.map Position.getBuyingPower).sum

/-- Sum of the deltas over a list of positions. -/
def sumDelta (ps : List Position) : ℚ := (ps.map Position.getDelta).sum

/-- Sum of the gammas over a list of positions. -/
def sumGamma (ps : List Position) : ℚ := (ps.map Position.getGamma).sum

/-- Sum of the thetas over a list of positions. -/
def sumTheta (ps : List Position) : ℚ := (ps.map Position.getTheta).sum

/-- Sum of the vegas over a list of positions. -/
def sumVega (ps : List Position) : ℚ := (ps.map Position.getVega).sum

/-- Sum of the mark-to-market profit and loss over a list of positions. -/
def sumProfitLoss (ps : List Position) : ℚ := (ps.map Position.calcProfitLoss).sum

/-- Modelled from the spec: a Signal event carries exactly one position and
its risk-management strategy (signalEvent.SignalEvent in the tests). -/
structure SignalEvent where
  position : Position
  riskManagement : RiskStrategy
deriving DecidableEq

/-- Modelled from the spec: the three observable outcomes of onSignal —
admission, silent rejection for lack of capital, and the distinct validation
rejection of spec section 7. -/
inductive SignalResult
| admitted
| rejectedCapital
| rejectedInvalid
deriving DecidableEq

/-- Modelled from the spec: the position carried by a signal with the
signal's risk-management strategy attached (spec section 4.1 step 4). -/
def attachRisk (e : SignalEvent) : Position :=
  { e.position with riskManagement := e.riskManagement }

/-- Modelled from the spec: capital not yet committed — starting capital
times the usable fraction, minus the buying power already consumed (spec
section 4.1 step 2). -/
def Portfolio.availableCapital (s : Portfolio) : ℚ :=
  s.startingCapital * s.maxCapitalToUse - s.totalBuyingPower

/-- Modelled from the spec: the per-trade capital limit — available capital
times the per-trade fraction (spec section 4.1 step 3). -/
def Portfolio.perTradeLimit (s : Portfolio) : ℚ :=
  s.availableCapital * s.maxCapitalToUsePerTrade

/-- Modelled from the spec: state change on admission — append the position,
commit its buying power plus its opening fees (the test constants
63311.5427 = 63310.00 margin + 1.5427 fees force the fees into the
buying-power ledger at open), recompute the Greek aggregates by summation,
and deduct the opening fees from net liquidity. -/
def admitPosition (s : Portfolio) (p : Position) : Portfolio :=
  { s with
      activePositions := s.activePositions ++ [p]
      totalBuyingPower := s.totalBuyingPower + p.getBuyingPower + p.openingFees
      totalDelta := sumDelta (s.activePositions ++ [p])
      totalGamma := sumGamma (s.activePositions ++ [p])
      totalTheta := sumTheta (s.activePositions ++ [p])
      totalVega := sumVega (s.activePositions ++ [p])
      netLiquidity := s.netLiquidity - p.openingFees
      totalFees := s.totalFees + p.openingFees }

/-- Modelled from the spec: Portfolio.onSignal (spec section 4.1) —
structurally invalid positions are rejected with the distinct validation
outcome; otherwise the position is admitted iff its required buying power is
within both the per-trade limit and the available capital, and rejected
silently (state unchanged) otherwise. -/
def Portfolio.onSignal (s : Portfolio) (e : SignalEvent) : SignalResult × Portfolio :=
  if (attachRisk e).isValid = true then
    if (attachRisk e).getBuyingPower ≤ s.perTradeLimit ∧
        (attachRisk e).getBuyingPower ≤ s.availableCapital then
      (SignalResult.admitted, admitPosition s (attachRisk e))
    else (SignalResult.rejectedCapital, s)
  else (SignalResult.rejectedInvalid, s)

/-- Modelled from the spec: a Tick event carries a batch of refreshed legs
(tickEvent.TickEvent in the tests). -/
structure TickEvent where
  legs : List Leg
deriving DecidableEq

/-- Modelled from the spec: the simulation timestamp of a tick — the maximum
of the refreshed legs' timestamps (spec section 4.1, updatePortfolio). -/
def tickAsOf (e : TickEvent) : ℤ :=
  match e.legs with
  | [] => 0
  | l :: rest => rest.foldl (fun a x => if a ≤ x.dateTime then x.dateTime else a) l.dateTime

/-- Modelled from the spec: instrument identity of a leg — ticker, strike,
expiration and right (spec section 4.1 step 1). -/
def legMatches (a : Leg) (b : Leg) : Bool :=
  decide (a.underlyingTicker = b.underlyingTicker) &&
  decide (a.strikePrice = b.strikePrice) &&
  decide (a.expirationDateTime = b.expirationDateTime) &&
  decide (a.right = b.right)

/-- Modelled from the spec: replace one held leg by the matching refreshed
leg of the quote chain, if any; otherwise keep the previous leg. -/
def refreshLeg (chain : List Leg) (l : Leg) : Leg :=
  match chain.find? (fun c => legMatches c l) with
  | some c => c
  | none => l

/-- Modelled from the spec: replace a position's legs by their matching
refreshed legs; derived values are functions of the legs, so they are
recomputed, never patched. -/
def Position.updateLegs (p : Position) (chain : List Leg) : Position :=
  { p with legs := p.legs.map (refreshLeg chain) }

/-- Modelled from the spec: the active positions surviving one
updatePortfolio cycle — every active position refreshed from the tick's quote
chain, with the positions flagged for closure by their risk-management
strategy removed. -/
def survivingPositions (s : Portfolio) (e : TickEvent) : List Position :=
  (s.activePositions.map (fun p => p.updateLegs e.legs)).filter
    (fun q => !(shouldClose q.riskManagement q (tickAsOf e)))

/-- Modelled from the spec: Portfolio.updatePortfolio (spec section 4.1) —
refresh every active position from the quote chain, remove the positions
flagged for closure, and recompute every aggregate by full summation over the
surviving set; net liquidity is starting capital plus unrealized profit and
loss minus cumulative fees. -/
def Portfolio.updatePortfolio (s : Portfolio) (e : TickEvent) : Portfolio :=
  { s with
      activePositions := survivingPositions s e
      totalBuyingPower := sumBuyingPower (survivingPositions s e)
      totalDelta := sumDelta (survivingPositions s e)
      totalGamma := sumGamma (survivingPositions s e)
      totalTheta := sumTheta (survivingPositions s e)
      totalVega := sumVega (survivingPositions s e)
      netLiquidity := s.startingCapital + sumProfitLoss (survivingPositions s e) - s.totalFees }

/-- An event handled by the portfolio: a signal or a tick. -/
inductive Event
| signal (e : SignalEvent)
| tick (e : TickEvent)

/-- Process one event against the portfolio state. -/
def Portfolio.processEvent (s : Portfolio) (ev : Event) : Portfolio :=
  match ev with
  | Event.signal e => (s.onSignal e).2
  | Event.tick e => s.updatePortfolio e

/-- Process a sequence of events; the reachable states of the engine are the
results of runEvents from a freshly constructed portfolio. -/
def Portfolio.runEvents (s : Portfolio) (evs : List Event) : Portfolio :=
  evs.foldl Portfolio.processEvent s

/-! Reference scenario constants, taken verbatim from
portfolioManager/portfolioTest.py. -/

/-- Ticker of the reference scenario's underlying. -/
def spx : String := "SPX"

/-- Day-one 2690-strike put of the reference scenario (portfolioTest.py
setUp). -/
def putDayOne : Leg :=
  { underlyingTicker := spx
    right := OptionRight.put
    underlyingPrice := 2786.24
    strikePrice := 2690
    delta := -0.16
    gamma := 0.01
    theta := 0.02
    vega := 0.03
    dateTime := 20210101
    expirationDateTime := 20210120
    bidPrice := 7.45
    askPrice := 7.50
    tradePrice := 7.475 }

/-- Day-one 2855-strike call of the reference scenario (portfolioTest.py
setUp). -/
def callDayOne : Leg :=
  { underlyingTicker := spx
    right := OptionRight.call
    underlyingPrice := 2786.24
    strikePrice := 2855
    delta := 0.16
    gamma := 0.01
    theta := 0.02
    vega := 0.03
    dateTime := 20210101
    expirationDateTime := 20210120
    bidPrice := 5.20
    askPrice := 5.40
    tradePrice := 5.30 }

/-- Day-two refreshed put (portfolioTest.py testUpdatePortfolio). -/
def putDayTwo : Leg :=
  { putDayOne with
      dateTime := 20210102
      bidPrice := 6.45
      askPrice := 6.50
      tradePrice := 6.475 }

/-- Day-two refreshed call (portfolioTest.py testUpdatePortfolio). -/
def callDayTwo : Leg :=
  { callDayOne with
      dateTime := 20210102
      bidPrice := 4.20
      askPrice := 4.40
      tradePrice := 4.30 }

/-- The 1-lot SELL strangle of the reference scenario. -/
def scenStrangle : Position := mkStrangle 1 callDayOne putDayOne TransactionType.SELL

/-- The signal event carrying the reference strangle with the
hold-to-expiration strategy. -/
def scenSignal : SignalEvent :=
  { position := scenStrangle, riskManagement := RiskStrategy.holdToExpiration }

/-- Freshly constructed reference portfolio: one million starting capital,
half usable in total, half of that per trade. -/
def scenInit : Portfolio := Portfolio.make 1000000 0.5 0.5

/-- Portfolio state after admitting the reference strangle. -/
def scenAfterSignal : Portfolio := (scenInit.onSignal scenSignal).2

/-- Day-two tick event refreshing both legs. -/
def scenTick : TickEvent := { legs := [callDayTwo, putDayTwo] }

/-- Portfolio state after the day-two updatePortfolio call. -/
def scenAfterUpdate : Portfolio := scenAfterSignal.updatePortfolio scenTick

/-! Evaluation lemmas for the reference scenario. -/

lemma attachRisk_scenSignal : attachRisk scenSignal = scenStrangle := rfl

lemma scenStrangle_isValid : scenStrangle.isValid = true := by decide

lemma scenStrangle_getBuyingPower : scenStrangle.getBuyingPower = 63310 := by
  norm_num [scenStrangle, mkStrangle, Position.getBuyingPower, nakedMarginPerShare,
    callDayOne, putDayOne, qmax]

lemma scenStrangle_openingFees : scenStrangle.openingFees = 1.5427 := by
  norm_num [scenStrangle, mkStrangle, Position.openingFees, openFeePerContract]

lemma scenInit_admitCond :
    scenStrangle.getBuyingPower ≤ scenInit.perTradeLimit ∧
      scenStrangle.getBuyingPower ≤ scenInit.availableCapital := by
  rw [scenStrangle_getBuyingPower]
  norm_num [scenInit, Portfolio.make, Portfolio.perTradeLimit, Portfolio.availableCapital]

lemma scenAfterSignal_eq : scenAfterSignal = admitPosition scenInit scenStrangle := by
  show (scenInit.onSignal scenSignal).2 = admitPosition scenInit scenStrangle
  unfold Portfolio.onSignal
  rw [attachRisk_scenSignal, if_pos scenStrangle_isValid, if_pos scenInit_admitCond]

lemma scenResult_admitted : (scenInit.onSignal scenSignal).1 = SignalResult.admitted := by
  unfold Portfolio.onSignal
  rw [attachRisk_scenSignal, if_pos scenStrangle_isValid, if_pos scenInit_admitCond]

lemma scenAfterSignal_totalBuyingPower : scenAfterSignal.totalBuyingPower = 63311.5427 := by
  rw [scenAfterSignal_eq]
  show scenInit.totalBuyingPower + scenStrangle.getBuyingPower + scenStrangle.openingFees
      = 63311.5427
  rw [scenStrangle_getBuyingPower, scenStrangle_openingFees]
  norm_num [scenInit, Portfolio.make]

lemma scenAfterSignal_totalDelta : scenAfterSignal.totalDelta = 0 := by
  rw [scenAfterSignal_eq]
  show sumDelta (scenInit.activePositions ++ [scenStrangle]) = 0
  norm_num [scenInit, Portfolio.make, sumDelta, Position.getDelta, scenStrangle, mkStrangle,
    callDayOne, putDayOne]

lemma scenActive_eq : scenAfterSignal.activePositions = [scenStrangle] := by
  rw [scenAfterSignal_eq]; rfl

/-- The reference strangle after the day-two refresh: day-two legs, day-one
opening premium. -/
def scenStrangleDayTwo : Position :=
  { legs := [callDayTwo, putDayTwo]
    orderQuantity := 1
    buyOrSell := TransactionType.SELL
    openPremium := callDayOne.tradePrice + putDayOne.tradePrice
    riskManagement := RiskStrategy.holdToExpiration }

lemma scenUpdateLegs_eq : scenStrangle.updateLegs scenTick.legs = scenStrangleDayTwo := rfl

lemma scenSurviving_eq :
    survivingPositions scenAfterSignal scenTick = [scenStrangleDayTwo] := by
  unfold survivingPositions
  rw [scenActive_eq]
  rfl

lemma scenStrangleDayTwo_getBuyingPower : scenStrangleDayTwo.getBuyingPower = 63210 := by
  norm_num [scenStrangleDayTwo, Position.getBuyingPower, nakedMarginPerShare,
    callDayTwo, putDayTwo, callDayOne, putDayOne, qmax]

lemma scenAfterUpdate_totalBuyingPower : scenAfterUpdate.totalBuyingPower = 63210 := by
  show sumBuyingPower (survivingPositions scenAfterSignal scenTick) = 63210
  rw [scenSurviving_eq]
  norm_num [sumBuyingPower, scenStrangleDayTwo_getBuyingPower]

lemma scenAfterUpdate_totalVega : scenAfterUpdate.totalVega = 0.06 := by
  show sumVega (survivingPositions scenAfterSignal scenTick) = 0.06
  rw [scenSurviving_eq]
  norm_num [sumVega, Position.getVega, scenStrangleDayTwo, callDayTwo, putDayTwo,
    callDayOne, putDayOne]

lemma scenAfterUpdate_totalGamma : scenAfterUpdate.totalGamma = 0.02 := by
  show sumGamma (survivingPositions scenAfterSignal scenTick) = 0.02
  rw [scenSurviving_eq]
  norm_num [sumGamma, Position.getGamma, scenStrangleDayTwo, callDayTwo, putDayTwo,
    callDayOne, putDayOne]

lemma scenAfterUpdate_totalTheta : scenAfterUpdate.totalTheta = 0.04 := by
  show sumTheta (survivingPositions scenAfterSignal scenTick) = 0.04
  rw [scenSurviving_eq]
  norm_num [sumTheta, Position.getTheta, scenStrangleDayTwo, callDayTwo, putDayTwo,
    callDayOne, putDayOne]

lemma scenAfterUpdate_totalDelta : scenAfterUpdate.totalDelta = 0 := by
  show sumDelta (survivingPositions scenAfterSignal scenTick) = 0
  rw [scenSurviving_eq]
  norm_num [sumDelta, Position.getDelta, scenStrangleDayTwo, callDayTwo, putDayTwo,
    callDayOne, putDayOne]

lemma scenAfterSignal_totalFees : scenAfterSignal.totalFees = 1.5427 := by
  rw [scenAfterSignal_eq]
  show scenInit.totalFees + scenStrangle.openingFees = 1.5427
  rw [scenStrangle_openingFees]
  norm_num [scenInit, Portfolio.make]

lemma scenAfterUpdate_netLiquidity : scenAfterUpdate.netLiquidity = 1000198.4573 := by
  show scenAfterSignal.startingCapital + sumProfitLoss (survivingPositions scenAfterSignal scenTick)
      - scenAfterSignal.totalFees = 1000198.4573
  rw [scenSurviving_eq, scenAfterSignal_totalFees]
  have hcap : scenAfterSignal.startingCapital = 1000000 := by
    rw [scenAfterSignal_eq]; rfl
  rw [hcap]
  norm_num [sumProfitLoss, Position.calcProfitLoss, Position.costToClose, scenStrangleDayTwo,
    callDayTwo, putDayTwo, callDayOne, putDayOne]

/-! Constants and evaluation lemmas for the secondary test scenarios. -/

/-- Portfolio of the test that rejects a signal for lack of buying power:
100,000 starting capital with 10 percent / 10 percent limits. -/
def poorInit : Portfolio := Portfolio.make 100000 0.1 0.1

lemma poorInit_onSignal :
    poorInit.onSignal scenSignal = (SignalResult.rejectedCapital, poorInit) := by
  unfold Portfolio.onSignal
  rw [attachRisk_scenSignal, if_pos scenStrangle_isValid, if_neg]
  rw [scenStrangle_getBuyingPower]
  norm_num [poorInit, Portfolio.make, Portfolio.perTradeLimit, Portfolio.availableCapital]

/-- Portfolio whose per-trade limit equals the reference strangle's required
buying power exactly: 253,240 × 1 × 0.25 = 63,310. -/
def boundaryExact : Portfolio := Portfolio.make 253240 1 0.25

/-- Portfolio whose per-trade limit is one decimal unit (0.0001) below the
reference strangle's required buying power. -/
def boundaryAbove : Portfolio := Portfolio.make 253239.9996 1 0.25

lemma boundaryExact_admits :
    (boundaryExact.onSignal scenSignal).1 = SignalResult.admitted := by
  unfold Portfolio.onSignal
  rw [attachRisk_scenSignal, if_pos scenStrangle_isValid, if_pos]
  rw [scenStrangle_getBuyingPower]
  norm_num [boundaryExact, Portfolio.make, Portfolio.perTradeLimit, Portfolio.availableCapital]

lemma boundaryAbove_rejects :
    (boundaryAbove.onSignal scenSignal).1 = SignalResult.rejectedCapital := by
  unfold Portfolio.onSignal
  rw [attachRisk_scenSignal, if_pos scenStrangle_isValid, if_neg]
  rw [scenStrangle_getBuyingPower]
  norm_num [boundaryAbove, Portfolio.make, Portfolio.perTradeLimit, Portfolio.availableCapital]

/-- Structurally invalid position: the reference strangle with a zero order
quantity. -/
def invalidPosition : Position := { scenStrangle with orderQuantity := 0 }

/-- Signal event carrying the structurally invalid position. -/
def invalidSignal : SignalEvent :=
  { position := invalidPosition, riskManagement := RiskStrategy.holdToExpiration }

lemma invalidPosition_isValid : (attachRisk invalidSignal).isValid = false := by decide

/-- Expired-at-tick 2700-strike put of the hold-to-expiration test. -/
def expPut : Leg :=
  { underlyingTicker := spx
    right := OptionRight.put
    underlyingPrice := 2800.00
    strikePrice := 2700
    delta := -0.16
    gamma := 0.01
    theta := 0.02
    vega := 0.03
    dateTime := 20210101
    expirationDateTime := 20210101
    bidPrice := 8.00
    askPrice := 8.50
    tradePrice := 8.25 }

/-- Expired-at-tick 3000-strike call of the hold-to-expiration test. -/
def expCall : Leg :=
  { underlyingTicker := spx
    right := OptionRight.call
    underlyingPrice := 2800.00
    strikePrice := 3000
    delta := 0.16
    gamma := 0.01
    theta := 0.02
    vega := 0.03
    dateTime := 20210101
    expirationDateTime := 20210101
    bidPrice := 6.00
    askPrice := 6.50
    tradePrice := 6.25 }

/-- The second, already-expired strangle of the hold-to-expiration test. -/
def expStrangle : Position := mkStrangle 1 expCall expPut TransactionType.SELL

/-- Signal event carrying the expired strangle. -/
def holdSignalTwo : SignalEvent :=
  { position := expStrangle, riskManagement := RiskStrategy.holdToExpiration }

/-- Portfolio of the hold-to-expiration test: one million starting capital,
50 percent usable, 25 percent of that per trade. -/
def holdInit : Portfolio := Portfolio.make 1000000 0.5 0.25

/-- Hold-to-expiration test state after admitting the reference strangle. -/
def holdAfterOne : Portfolio := (holdInit.onSignal scenSignal).2

/-- Hold-to-expiration test state after admitting both strangles. -/
def holdState : Portfolio := (holdAfterOne.onSignal holdSignalTwo).2

/-- Tick event of the hold-to-expiration test (prices unchanged). -/
def holdTick : TickEvent := { legs := [expCall, expPut] }

lemma holdAfterOne_eq : holdAfterOne = admitPosition holdInit scenStrangle := by
  show (holdInit.onSignal scenSignal).2 = admitPosition holdInit scenStrangle
  unfold Portfolio.onSignal
  rw [attachRisk_scenSignal, if_pos scenStrangle_isValid, if_pos]
  rw [scenStrangle_getBuyingPower]
  norm_num [holdInit, Portfolio.make, Portfolio.perTradeLimit, Portfolio.availableCapital]

lemma expStrangle_isValid : expStrangle.isValid = true := by decide

lemma expStrangle_getBuyingPower : expStrangle.getBuyingPower = 60825 := by
  norm_num [expStrangle, mkStrangle, Position.getBuyingPower, nakedMarginPerShare,
    expCall, expPut, qmax]

lemma holdState_eq : holdState = admitPosition holdAfterOne expStrangle := by
  show (holdAfterOne.onSignal holdSignalTwo).2 = admitPosition holdAfterOne expStrangle
  unfold Portfolio.onSignal
  have hattach : attachRisk holdSignalTwo = expStrangle := rfl
  rw [hattach, if_pos expStrangle_isValid, if_pos]
  rw [expStrangle_getBuyingPower]
  have hbp : holdAfterOne.totalBuyingPower = 63311.5427 := by
    rw [holdAfterOne_eq]
    show holdInit.totalBuyingPower + scenStrangle.getBuyingPower + scenStrangle.openingFees
        = 63311.5427
    rw [scenStrangle_getBuyingPower, scenStrangle_openingFees]
    norm_num [holdInit, Portfolio.make]
  have hstart : holdAfterOne.startingCapital = 1000000 := by rw [holdAfterOne_eq]; rfl
  have huse : holdAfterOne.maxCapitalToUse = 0.5 := by rw [holdAfterOne_eq]; rfl
  have hper : holdAfterOne.maxCapitalToUsePerTrade = 0.25 := by rw [holdAfterOne_eq]; rfl
  unfold Portfolio.perTradeLimit Portfolio.availableCapital
  rw [hbp, hstart, huse, hper]
  norm_num

lemma holdState_active : holdState.activePositions = [scenStrangle, expStrangle] := by
  rw [holdState_eq, holdAfterOne_eq]
  rfl

lemma expStrangle_mem_holdState : expStrangle ∈ holdState.activePositions := by
  rw [holdState_active]
  simp

/-! General lemmas about the engine. -/

lemma list_map_congr {α β : Type} (f g : α → β) :
    ∀ (l : List α), (∀ x ∈ l, f x = g x) → l.map f = l.map g := by
  intro l
  induction l with
  | nil => intro _; rfl
  | cons a rest ih =>
    intro h
    simp only [List.map_cons]
    rw [h a (List.mem_cons_self a rest), ih (fun x hx => h x (List.mem_cons_of_mem a hx))]

lemma list_map_self {α : Type} (f : α → α) :
    ∀ (l : List α), (∀ x ∈ l, f x = x) → l.map f = l := by
  intro l
  induction l with
  | nil => intro _; rfl
  | cons a rest ih =>
    intro h
    simp only [List.map_cons]
    rw [h a (List.mem_cons_self a rest), ih (fun x hx => h x (List.mem_cons_of_mem a hx))]

lemma legMatches_expiration {c l : Leg} (h : legMatches c l = true) :
    c.expirationDateTime = l.expirationDateTime := by
  unfold legMatches at h
  simp only [Bool.and_eq_true, decide_eq_true_eq] at h
  exact h.1.2

lemma refreshLeg_expiration (chain : List Leg) (l : Leg) :
    (refreshLeg chain l).expirationDateTime = l.expirationDateTime := by
  unfold refreshLeg
  cases hfind : chain.find? (fun c => legMatches c l) with
  | none => rfl
  | some c =>
    have hc := List.find?_some hfind
    exact legMatches_expiration hc

lemma updateLegs_riskManagement (p : Position) (chain : List Leg) :
    (p.updateLegs chain).riskManagement = p.riskManagement := rfl

lemma updateLegs_earliestExpiration (p : Position) (chain : List Leg) :
    (p.updateLegs chain).earliestExpiration = p.earliestExpiration := by
  unfold Position.earliestExpiration Position.updateLegs
  simp only [List.map_map]
  rw [list_map_congr (Leg.expirationDateTime ∘ refreshLeg chain) Leg.expirationDateTime]
  intro x _
  exact refreshLeg_expiration chain x

lemma updateLegs_isExpiredAsOf (p : Position) (chain : List Leg) (asOf : ℤ) :
    (p.updateLegs chain).isExpiredAsOf asOf = p.isExpiredAsOf asOf := by
  unfold Position.isExpiredAsOf
  rw [updateLegs_earliestExpiration]

lemma shouldClose_eq_isExpired (rm : RiskStrategy) (p : Position) (asOf : ℤ) :
    shouldClose rm p asOf = p.isExpiredAsOf asOf := by
  cases rm
  rfl

lemma onSignal_state_cases (s : Portfolio) (e : SignalEvent) :
    (s.onSignal e).2 = s ∨ (s.onSignal e).2 = admitPosition s (attachRisk e) := by
  unfold Portfolio.onSignal
  by_cases h1 : (attachRisk e).isValid = true
  · rw [if_pos h1]
    by_cases h2 : (attachRisk e).getBuyingPower ≤ s.perTradeLimit ∧
        (attachRisk e).getBuyingPower ≤ s.availableCapital
    · rw [if_pos h2]; exact Or.inr rfl
    · rw [if_neg h2]; exact Or.inl rfl
  · rw [if_neg h1]; exact Or.inl rfl

/-- Consistency of the Greek aggregates with the active-position set: each of
the four aggregates equals the sum of that Greek over the active positions. -/
def greeksConsistent (s : Portfolio) : Prop :=
  s.totalDelta = sumDelta s.activePositions ∧
  s.totalGamma = sumGamma s.activePositions ∧
  s.totalTheta = sumTheta s.activePositions ∧
  s.totalVega = sumVega s.activePositions

lemma greeksConsistent_make (c u t : ℚ) : greeksConsistent (Portfolio.make c u t) := by
  refine ⟨?_, ?_, ?_, ?_⟩ <;>
    simp [Portfolio.make, sumDelta, sumGamma, sumTheta, sumVega]

lemma greeksConsistent_admit (s : Portfolio) (p : Position) :
    greeksConsistent (admitPosition s p) := ⟨rfl, rfl, rfl, rfl⟩

lemma greeksConsistent_update (s : Portfolio) (e : TickEvent) :
    greeksConsistent (s.updatePortfolio e) := ⟨rfl, rfl, rfl, rfl⟩

lemma greeksConsistent_processEvent (s : Portfolio) (ev : Event)
    (h : greeksConsistent s) : greeksConsistent (s.processEvent ev) := by
  cases ev with
  | signal e =>
    show greeksConsistent (s.onSignal e).2
    rcases onSignal_state_cases s e with h2 | h2
    · rw [h2]; exact h
    · rw [h2]; exact greeksConsistent_admit s (attachRisk e)
  | tick e => exact greeksConsistent_update s e

lemma greeksConsistent_runEvents (evs : List Event) :
    ∀ (s : Portfolio), greeksConsistent s → greeksConsistent (s.runEvents evs) := by
  induction evs with
  | nil => exact fun s h => h
  | cons ev rest ih =>
    intro s h
    exact ih (s.processEvent ev) (greeksConsistent_processEvent s ev h)

/-! Claim theorems. -/

/-- C1: End-to-end reference scenario: for a Portfolio constructed with
starting capital 1,000,000 and maxCapitalToUse = maxCapitalToUsePerTrade =
0.5, onSignal with the 1-lot SELL strangle (2690-strike put at trade price
7.475, 2855-strike call at trade price 5.30) admits the position and leaves
totalBuyingPower = 63,311.5427 and totalDelta = 0; the subsequent
updatePortfolio with both legs refreshed to the next-day prices (combined
credit to close 10.775) leaves totalBuyingPower = 63,210, totalVega = 0.06,
totalGamma = 0.02, totalTheta = 0.04, totalDelta = 0 and netLiquidity =
1,000,198.4573. -/
theorem endToEnd_reference_scenario :
    (scenInit.onSignal scenSignal).1 = SignalResult.admitted
    ∧ scenAfterSignal.totalBuyingPower = 63311.5427
    ∧ scenAfterSignal.totalDelta = 0
    ∧ scenAfterUpdate.totalBuyingPower = 63210
    ∧ scenAfterUpdate.totalVega = 0.06
    ∧ scenAfterUpdate.totalGamma = 0.02
    ∧ scenAfterUpdate.totalTheta = 0.04
    ∧ scenAfterUpdate.totalDelta = 0
    ∧ scenAfterUpdate.netLiquidity = 1000198.4573 :=
  ⟨scenResult_admitted, scenAfterSignal_totalBuyingPower, scenAfterSignal_totalDelta,
   scenAfterUpdate_totalBuyingPower, scenAfterUpdate_totalVega, scenAfterUpdate_totalGamma,
   scenAfterUpdate_totalTheta, scenAfterUpdate_totalDelta, scenAfterUpdate_netLiquidity⟩

/-- C2 counterexample: the buying-power ledger invariant fails in the
reachable state right after the reference admission — totalBuyingPower is
63,311.5427 (margin plus opening fees) while the sum of the active
positions' buying-power requirements is 63,310. -/
theorem buyingPower_invariant_counterexample :
    (scenInit.runEvents [Event.signal scenSignal]).totalBuyingPower = 63311.5427
    ∧ sumBuyingPower (scenInit.runEvents [Event.signal scenSignal]).activePositions = 63310
    ∧ (scenInit.runEvents [Event.signal scenSignal]).totalBuyingPower ≠
        sumBuyingPower (scenInit.runEvents [Event.signal scenSignal]).activePositions := by
  have h1 : scenInit.runEvents [Event.signal scenSignal] = scenAfterSignal := rfl
  rw [h1]
  have h2 : sumBuyingPower scenAfterSignal.activePositions = 63310 := by
    rw [scenActive_eq]
    norm_num [sumBuyingPower, scenStrangle_getBuyingPower]
  refine ⟨scenAfterSignal_totalBuyingPower, h2, ?_⟩
  rw [scenAfterSignal_totalBuyingPower, h2]
  norm_num

/-- C2 amended: after every updatePortfolio call totalBuyingPower equals
exactly the sum of the active positions' current buying-power requirements;
after an admitting onSignal call it instead grows by the admitted position's
buying-power requirement plus its opening commissions and fees, so the exact
equality does not hold immediately after an admission with nonzero fees. -/
theorem buyingPower_ledger_amended :
    (∀ (s : Portfolio) (e : TickEvent),
        (s.updatePortfolio e).totalBuyingPower =
          sumBuyingPower (s.updatePortfolio e).activePositions)
    ∧ (∀ (s : Portfolio) (e : SignalEvent),
        (s.onSignal e).1 = SignalResult.admitted →
          (s.onSignal e).2.totalBuyingPower =
            s.totalBuyingPower + (attachRisk e).getBuyingPower + (attachRisk e).openingFees) := by
  constructor
  · intro s e
    rfl
  · intro s e h
    unfold Portfolio.onSignal at h ⊢
    by_cases h1 : (attachRisk e).isValid = true
    · rw [if_pos h1] at h ⊢
      by_cases h2 : (attachRisk e).getBuyingPower ≤ s.perTradeLimit ∧
          (attachRisk e).getBuyingPower ≤ s.availableCapital
      · rw [if_pos h2]
        rfl
      · rw [if_neg h2] at h
        simp at h
    · rw [if_neg h1] at h
      simp at h

/-- Witness for the amended C2 theorem at the reference admission. -/
theorem buyingPower_ledger_amended_witness :
    (scenInit.onSignal scenSignal).2.totalBuyingPower =
      scenInit.totalBuyingPower + (attachRisk scenSignal).getBuyingPower +
        (attachRisk scenSignal).openingFees :=
  buyingPower_ledger_amended.2 scenInit scenSignal scenResult_admitted

/-- C3: Greek-aggregate invariant: in every reachable Portfolio state (any
event sequence from a freshly constructed portfolio), each of the four
aggregate Greeks equals the sum of that Greek over the active positions. -/
theorem reachable_greek_aggregates (c u t : ℚ) (evs : List Event) :
    greeksConsistent ((Portfolio.make c u t).runEvents evs) :=
  greeksConsistent_runEvents evs (Portfolio.make c u t) (greeksConsistent_make c u t)

/-- C4: Admission rule: for a structurally valid signal, onSignal admits the
position iff its required buying power is at most the per-trade limit and at
most the available capital; moreover a portfolio whose per-trade limit
exactly equals the reference strangle's requirement admits it, and one whose
limit is one decimal unit lower rejects it. -/
theorem onSignal_admission_rule :
    (∀ (s : Portfolio) (e : SignalEvent), (attachRisk e).isValid = true →
        ((s.onSignal e).1 = SignalResult.admitted ↔
          (attachRisk e).getBuyingPower ≤ s.perTradeLimit ∧
            (attachRisk e).getBuyingPower ≤ s.availableCapital))
    ∧ (boundaryExact.onSignal scenSignal).1 = SignalResult.admitted
    ∧ (boundaryAbove.onSignal scenSignal).1 = SignalResult.rejectedCapital := by
  refine ⟨?_, boundaryExact_admits, boundaryAbove_rejects⟩
  intro s e hv
  unfold Portfolio.onSignal
  rw [if_pos hv]
  by_cases h2 : (attachRisk e).getBuyingPower ≤ s.perTradeLimit ∧
      (attachRisk e).getBuyingPower ≤ s.availableCapital
  · rw [if_pos h2]
    simpa using h2
  · rw [if_neg h2]
    simpa using h2

/-- Witness for the C4 admission rule at the reference signal. -/
theorem onSignal_admission_rule_witness :
    (scenInit.onSignal scenSignal).1 = SignalResult.admitted ↔
      (attachRisk scenSignal).getBuyingPower ≤ scenInit.perTradeLimit ∧
        (attachRisk scenSignal).getBuyingPower ≤ scenInit.availableCapital :=
  onSignal_admission_rule.1 scenInit scenSignal (by decide)

/-- C5: Silent rejection with atomicity: when onSignal rejects a signal for
lack of buying power, the resulting state is the old state unchanged — same
active positions, buying power, Greek aggregates and net liquidity — and no
error is raised (the operation is a total function returning a normal
result). -/
theorem onSignal_rejection_silent (s : Portfolio) (e : SignalEvent)
    (h : (s.onSignal e).1 = SignalResult.rejectedCapital) :
    (s.onSignal e).2 = s := by
  unfold Portfolio.onSignal
  by_cases h1 : (attachRisk e).isValid = true
  · rw [if_pos h1]
    by_cases h2 : (attachRisk e).getBuyingPower ≤ s.perTradeLimit ∧
        (attachRisk e).getBuyingPower ≤ s.availableCapital
    · exfalso
      unfold Portfolio.onSignal at h
      rw [if_pos h1, if_pos h2] at h
      simp at h
    · rw [if_neg h2]
  · rw [if_neg h1]

/-- Witness for C5 at the insufficient-capital test scenario. -/
theorem onSignal_rejection_silent_witness :
    (poorInit.onSignal scenSignal).2 = poorInit :=
  onSignal_rejection_silent poorInit scenSignal (by rw [poorInit_onSignal])

/-- C6: Closure correctness: for every active position, the hold-to-expiration
strategy's shouldClose equals isExpiredAsOf; refreshing legs preserves the
expiration status; if the position's earliest leg expiration is at or before
the tick's timestamp, its refreshed version is removed from the active set by
updatePortfolio, and otherwise it remains; and the resulting aggregates are
sums over the surviving set only, so a closed position's buying power and
Greeks are excluded. -/
theorem updatePortfolio_closure (s : Portfolio) (e : TickEvent) (p : Position)
    (hp : p ∈ s.activePositions) :
    (shouldClose (p.updateLegs e.legs).riskManagement (p.updateLegs e.legs) (tickAsOf e) =
        (p.updateLegs e.legs).isExpiredAsOf (tickAsOf e))
    ∧ ((p.updateLegs e.legs).isExpiredAsOf (tickAsOf e) = p.isExpiredAsOf (tickAsOf e))
    ∧ (p.earliestExpiration ≤ tickAsOf e →
        p.updateLegs e.legs ∉ (s.updatePortfolio e).activePositions)
    ∧ (¬ p.earliestExpiration ≤ tickAsOf e →
        p.updateLegs e.legs ∈ (s.updatePortfolio e).activePositions)
    ∧ (s.updatePortfolio e).totalBuyingPower =
        sumBuyingPower (s.updatePortfolio e).activePositions
    ∧ greeksConsistent (s.updatePortfolio e) := by
  refine ⟨shouldClose_eq_isExpired _ _ _, updateLegs_isExpiredAsOf p e.legs (tickAsOf e),
    ?_, ?_, rfl, greeksConsistent_update s e⟩
  · intro hexp hmem
    have hact : (s.updatePortfolio e).activePositions = survivingPositions s e := rfl
    rw [hact] at hmem
    unfold survivingPositions at hmem
    rcases List.mem_filter.mp hmem with ⟨_, hpred⟩
    rw [shouldClose_eq_isExpired, updateLegs_isExpiredAsOf] at hpred
    unfold Position.isExpiredAsOf at hpred
    rw [decide_eq_true hexp] at hpred
    simp at hpred
  · intro hexp
    have hact : (s.updatePortfolio e).activePositions = survivingPositions s e := rfl
    rw [hact]
    unfold survivingPositions
    refine List.mem_filter.mpr ⟨List.mem_map_of_mem _ hp, ?_⟩
    rw [shouldClose_eq_isExpired, updateLegs_isExpiredAsOf]
    unfold Position.isExpiredAsOf
    rw [decide_eq_false hexp]
    rfl

/-- Witness for C6: in the hold-to-expiration test, the expired second
strangle is active before the tick and removed by it. -/
theorem updatePortfolio_closure_witness :
    (shouldClose (expStrangle.updateLegs holdTick.legs).riskManagement
        (expStrangle.updateLegs holdTick.legs) (tickAsOf holdTick) =
        (expStrangle.updateLegs holdTick.legs).isExpiredAsOf (tickAsOf holdTick))
    ∧ ((expStrangle.updateLegs holdTick.legs).isExpiredAsOf (tickAsOf holdTick) =
        expStrangle.isExpiredAsOf (tickAsOf holdTick))
    ∧ (expStrangle.earliestExpiration ≤ tickAsOf holdTick →
        expStrangle.updateLegs holdTick.legs ∉ (holdState.updatePortfolio holdTick).activePositions)
    ∧ (¬ expStrangle.earliestExpiration ≤ tickAsOf holdTick →
        expStrangle.updateLegs holdTick.legs ∈ (holdState.updatePortfolio holdTick).activePositions)
    ∧ (holdState.updatePortfolio holdTick).totalBuyingPower =
        sumBuyingPower (holdState.updatePortfolio holdTick).activePositions
    ∧ greeksConsistent (holdState.updatePortfolio holdTick) :=
  updatePortfolio_closure holdState holdTick expStrangle expStrangle_mem_holdState

/-- C7: Frame property: a position none of whose legs matches any refreshed
leg of the quote chain is left unchanged by the refresh — identical position,
hence identical buying-power requirement, mark-to-market value and Greeks —
and a refreshed leg matching none of the position's legs is ignored (removing
it from the chain does not change the refresh result); no error is raised in
either case. -/
theorem updateLegs_frame (p : Position) (chain : List Leg) (l : Leg) :
    ((∀ c ∈ chain, ∀ q ∈ p.legs, legMatches c q = false) →
        p.updateLegs chain = p
        ∧ (p.updateLegs chain).getBuyingPower = p.getBuyingPower
        ∧ (p.updateLegs chain).calcProfitLoss = p.calcProfitLoss
        ∧ (p.updateLegs chain).getDelta = p.getDelta
        ∧ (p.updateLegs chain).getGamma = p.getGamma
        ∧ (p.updateLegs chain).getTheta = p.getTheta
        ∧ (p.updateLegs chain).getVega = p.getVega)
    ∧ ((∀ q ∈ p.legs, legMatches l q = false) →
        p.updateLegs (l :: chain) = p.updateLegs chain) := by
  constructor
  · intro h
    have heq : p.updateLegs chain = p := by
      unfold Position.updateLegs
      have hmap : p.legs.map (refreshLeg chain) = p.legs := by
        apply list_map_self
        intro x hx
        unfold refreshLeg
        have hnone : chain.find? (fun c => legMatches c x) = none := by
          apply List.find?_eq_none.mpr
          intro c hc
          simp [h c hc x hx]
        rw [hnone]
      rw [hmap]
    exact ⟨heq, by rw [heq], by rw [heq], by rw [heq], by rw [heq], by rw [heq], by rw [heq]⟩
  · intro h
    unfold Position.updateLegs
    congr 1
    apply list_map_congr
    intro x hx
    unfold refreshLeg
    rw [List.find?_cons_of_neg]
    simp [h x hx]

/-- Witness for C7: the reference strangle is untouched by a chain holding
only the unrelated 3000-strike call, and the unrelated 2700-strike put is
ignored when added to that chain. -/
theorem updateLegs_frame_witness :
    (scenStrangle.updateLegs [expCall] = scenStrangle
      ∧ (scenStrangle.updateLegs [expCall]).getBuyingPower = scenStrangle.getBuyingPower
      ∧ (scenStrangle.updateLegs [expCall]).calcProfitLoss = scenStrangle.calcProfitLoss
      ∧ (scenStrangle.updateLegs [expCall]).getDelta = scenStrangle.getDelta
      ∧ (scenStrangle.updateLegs [expCall]).getGamma = scenStrangle.getGamma
      ∧ (scenStrangle.updateLegs [expCall]).getTheta = scenStrangle.getTheta
      ∧ (scenStrangle.updateLegs [expCall]).getVega = scenStrangle.getVega)
    ∧ scenStrangle.updateLegs (expPut :: [expCall]) = scenStrangle.updateLegs [expCall] :=
  ⟨(updateLegs_frame scenStrangle [expCall] expPut).1 (by decide),
   (updateLegs_frame scenStrangle [expCall] expPut).2 (by decide)⟩

/-- C8: Order independence of closures: running updatePortfolio from the same
state with the active positions in any other order (any permutation) yields
permuted active positions and identical totalBuyingPower, Greek aggregates
and net liquidity — the final aggregates reflect exactly the surviving set,
independent of evaluation order. -/
theorem updatePortfolio_order_independence (s : Portfolio) (ps : List Position)
    (e : TickEvent) (hperm : List.Perm ps s.activePositions) :
    List.Perm (Portfolio.updatePortfolio { s with activePositions := ps } e).activePositions
        (s.updatePortfolio e).activePositions
    ∧ (Portfolio.updatePortfolio { s with activePositions := ps } e).totalBuyingPower
        = (s.updatePortfolio e).totalBuyingPower
    ∧ (Portfolio.updatePortfolio { s with activePositions := ps } e).totalDelta
        = (s.updatePortfolio e).totalDelta
    ∧ (Portfolio.updatePortfolio { s with activePositions := ps } e).totalGamma
        = (s.updatePortfolio e).totalGamma
    ∧ (Portfolio.updatePortfolio { s with activePositions := ps } e).totalTheta
        = (s.updatePortfolio e).totalTheta
    ∧ (Portfolio.updatePortfolio { s with activePositions := ps } e).totalVega
        = (s.updatePortfolio e).totalVega
    ∧ (Portfolio.updatePortfolio { s with activePositions := ps } e).netLiquidity
        = (s.updatePortfolio e).netLiquidity := by
  have hsurv : List.Perm (survivingPositions { s with activePositions := ps } e)
      (survivingPositions s e) := by
    unfold survivingPositions
    exact (hperm.map (fun p => p.updateLegs e.legs)).filter
      (fun q => !(shouldClose q.riskManagement q (tickAsOf e)))
  refine ⟨hsurv, (hsurv.map Position.getBuyingPower).sum_eq,
    (hsurv.map Position.getDelta).sum_eq, (hsurv.map Position.getGamma).sum_eq,
    (hsurv.map Position.getTheta).sum_eq, (hsurv.map Position.getVega).sum_eq, ?_⟩
  show s.startingCapital + sumProfitLoss (survivingPositions { s with activePositions := ps } e)
      - s.totalFees = s.startingCapital + sumProfitLoss (survivingPositions s e) - s.totalFees
  rw [show sumProfitLoss (survivingPositions { s with activePositions := ps } e)
      = sumProfitLoss (survivingPositions s e) from (hsurv.map Position.calcProfitLoss).sum_eq]

/-- Witness for C8: the two-position hold-to-expiration state processed with
its active positions reversed. -/
theorem updatePortfolio_order_independence_witness :
    List.Perm (Portfolio.updatePortfolio
        { holdState with activePositions := holdState.activePositions.reverse } holdTick).activePositions
        (holdState.updatePortfolio holdTick).activePositions
    ∧ (Portfolio.updatePortfolio
        { holdState with activePositions := holdState.activePositions.reverse } holdTick).totalBuyingPower
        = (holdState.updatePortfolio holdTick).totalBuyingPower
    ∧ (Portfolio.updatePortfolio
        { holdState with activePositions := holdState.activePositions.reverse } holdTick).totalDelta
        = (holdState.updatePortfolio holdTick).totalDelta
    ∧ (Portfolio.updatePortfolio
        { holdState with activePositions := holdState.activePositions.reverse } holdTick).totalGamma
        = (holdState.updatePortfolio holdTick).totalGamma
    ∧ (Portfolio.updatePortfolio
        { holdState with activePositions := holdState.activePositions.reverse } holdTick).totalTheta
        = (holdState.updatePortfolio holdTick).totalTheta
    ∧ (Portfolio.updatePortfolio
        { holdState with activePositions := holdState.activePositions.reverse } holdTick).totalVega
        = (holdState.updatePortfolio holdTick).totalVega
    ∧ (Portfolio.updatePortfolio
        { holdState with activePositions := holdState.activePositions.reverse } holdTick).netLiquidity
        = (holdState.updatePortfolio holdTick).netLiquidity :=
  updatePortfolio_order_independence holdState holdState.activePositions.reverse holdTick
    (List.reverse_perm holdState.activePositions)

/-- C9: Validation-error distinctness: a signal carrying a structurally
invalid position is rejected with the distinct rejectedInvalid outcome, the
state is unchanged, and that outcome differs from the capital-insufficiency
outcome, so callers can distinguish the two rejection causes. -/
theorem onSignal_validation_distinct (s : Portfolio) (e : SignalEvent)
    (h : (attachRisk e).isValid = false) :
    (s.onSignal e).1 = SignalResult.rejectedInvalid
    ∧ (s.onSignal e).2 = s
    ∧ SignalResult.rejectedInvalid ≠ SignalResult.rejectedCapital := by
  unfold Portfolio.onSignal
  rw [if_neg]
  · exact ⟨rfl, rfl, by simp⟩
  · simp [h]

/-- Witness for C9: the reference strangle with a zero order quantity is
rejected as invalid. -/
theorem onSignal_validation_distinct_witness :
    (scenInit.onSignal invalidSignal).1 = SignalResult.rejectedInvalid
    ∧ (scenInit.onSignal invalidSignal).2 = scenInit
    ∧ SignalResult.rejectedInvalid ≠ SignalResult.rejectedCapital :=
  onSignal_validation_distinct scenInit invalidSignal invalidPosition_isValid

/-- C10: Greek sign convention: position Greeks are plain sums of the legs'
raw values with no sign reversal for a SELL position (flipping the direction
field changes no Greek), and in the reference scenario — a SELL strangle
whose legs each carry gamma 0.01, theta 0.02, vega 0.03 and deltas −0.16 and
0.16 — the portfolio reports totalGamma = 0.02, totalTheta = 0.04, totalVega
= 0.06 and totalDelta = 0, not the negated values. -/
theorem greek_sign_convention :
    (∀ p : Position,
        ({ p with buyOrSell := TransactionType.BUY }).getDelta = p.getDelta
        ∧ ({ p with buyOrSell := TransactionType.BUY }).getGamma = p.getGamma
        ∧ ({ p with buyOrSell := TransactionType.BUY }).getTheta = p.getTheta
        ∧ ({ p with buyOrSell := TransactionType.BUY }).getVega = p.getVega)
    ∧ scenStrangle.buyOrSell = TransactionType.SELL
    ∧ scenAfterUpdate.totalGamma = 0.02
    ∧ scenAfterUpdate.totalTheta = 0.04
    ∧ scenAfterUpdate.totalVega = 0.06
    ∧ scenAfterUpdate.totalDelta = 0
    ∧ scenAfterUpdate.totalGamma ≠ -0.02
    ∧ scenAfterUpdate.totalTheta ≠ -0.04
    ∧ scenAfterUpdate.totalVega ≠ -0.06 := by
  refine ⟨fun p => ⟨rfl, rfl, rfl, rfl⟩, rfl, scenAfterUpdate_totalGamma,
    scenAfterUpdate_totalTheta, scenAfterUpdate_totalVega, scenAfterUpdate_totalDelta,
    ?_, ?_, ?_⟩
  · rw [scenAfterUpdate_totalGamma]; norm_num
  · rw [scenAfterUpdate_totalTheta]; norm_num
  · rw [scenAfterUpdate_totalVega]; norm_num

end OptionSuite
